import Mathlib

/-!
Verification of the PG Atlas backend admission-control core: SBOM envelope
normalization and SPDX schema validation (src/pg_atlas/ingestion/spdx.py),
GitHub OIDC token verification (src/pg_atlas/auth/oidc.py), and the
POST /ingest/sbom pipeline (src/pg_atlas/routers/ingestion.py and
src/pg_atlas/ingestion/queue.py).

The Python code is embedded shallowly.  External library calls made by the
source (Python json, PyJWT jwt.decode, spdx-tools parse_file) are modelled
at the granularity their documented behavior prescribes, as noted on each
definition.  Exceptions are modelled by Except and Option result types.
-/

namespace PgAtlas

/-! ## JSON values and raw byte payloads -/

/-- A JSON value as produced by Python json.loads.  Numbers are modelled as
integers (no claim depends on floats), objects as association lists whose
keys are unique when the value was produced by json.loads. -/
inductive Json where
  | null : Json
  | bool (b : Bool) : Json
  | num (n : Int) : Json
  | str (s : String) : Json
  | arr (xs : List Json) : Json
  | obj (kvs : List (String × Json)) : Json

/-- Python dict key lookup on a decoded JSON object.  json.loads yields
unique keys, so first-match lookup coincides with dict access. -/
def jsonLookup : List (String × Json) → String → Option Json
  | [], _ => none
  | (k, v) :: rest, key => if k = key then some v else jsonLookup rest key

/-- A raw byte payload, abstracted by its behavior under json.loads:
either the bytes fail to decode as UTF-8 JSON (tag distinguishes distinct
such byte strings), or they decode to exactly one JSON value (fmt
distinguishes serializations of the same value, e.g. whitespace variants;
fmt 0 is the canonical json.dumps serialization). -/
inductive Raw where
  | undecodable (tag : Nat) : Raw
  | decodable (j : Json) (fmt : Nat) : Raw

/-- Models Python json.loads on raw bytes: returns the decoded value, or
failure for bytes that are not valid UTF-8 JSON. -/
def json_loads : Raw → Option Json
  | .undecodable _ => none
  | .decodable j _ => some j

/-- Models Python json.dumps(j).encode(): the canonical serialization of a
JSON value. -/
def json_dumps (j : Json) : Raw := .decodable j 0

/-! ## SPDX parsing (src/pg_atlas/ingestion/spdx.py) -/

/-- Creation information of a parsed spdx-tools Document, restricted to
the fields the source reads (document.creation_info.name and
.spdx_version in the success log line) and the required fields named by
parse_and_validate_spdx's docstring. -/
structure CreationInfo where
  spdx_version : String
  spdx_id : String
  name : String
  document_namespace : String

/-- A parsed spdx-tools Document: creation info plus the declared package
entries.  Package entries are opaque to this core (the source only takes
len(document.packages)), so they are kept as raw JSON values. -/
structure Document where
  creation_info : CreationInfo
  packages : List Json

/-- An exception escaping spdx-tools parse_file: either an
SPDXParsingError carrying structured messages, or any other exception
(e.g. a JSONDecodeError from json.load, or an AttributeError when the
top-level JSON value is not an object), carried with its message. -/
inductive ParseExc where
  | spdxParsingError (messages : List String) : ParseExc
  | otherError (msg : String) : ParseExc

/-- SpdxValidationError from src/pg_atlas/ingestion/spdx.py: a detail
string plus optional structured messages from the underlying parser. -/
structure SpdxValidationError where
  detail : String
  messages : List String

/-- ParsedSbom from src/pg_atlas/ingestion/spdx.py. -/
structure ParsedSbom where
  document : Document
  package_count : Nat

/-- Reads a required top-level string field of an SPDX JSON object;
missing or non-string values count as missing-or-malformed. -/
def fieldString (kvs : List (String × Json)) (key : String) : Option String :=
  match jsonLookup kvs key with
  | some (.str s) => some s
  | _ => none

/-- Reads the declared package list: absent defaults to the empty list
(spdx-tools reads it with dict.get), a non-array value is malformed. -/
def packagesOf (kvs : List (String × Json)) : Option (List Json) :=
  match jsonLookup kvs "packages" with
  | none => some []
  | some (.arr xs) => some xs
  | some _ => none

/-- The required top-level document fields checked by the schema parse,
as named in parse_and_validate_spdx's docstring. -/
def requiredDocFields : List String :=
  ["spdxVersion", "SPDXID", "name", "documentNamespace"]

/-- One structured sub-message per violated field or rule, in the style
of spdx-tools SPDXParsingError messages. -/
def docErrors (kvs : List (String × Json)) : List String :=
  (requiredDocFields.filter (fun k => (fieldString kvs k).isNone)).map
    (fun k => "Error while parsing document: missing or malformed " ++ k)
    ++ (match jsonLookup kvs "packages" with
        | none => []
        | some (.arr _) => []
        | some _ => ["Error while parsing document: packages is not a list"])

/-- Parses a decoded top-level JSON object as an SPDX 2.3 document.
Models the spdx-tools JSON document parser at the granularity of the
fields this repository relies on: the four required top-level fields and
the package list.  Unknown keys are ignored, as spdx-tools reads known
keys by dict lookup. -/
def parseSpdxDict (kvs : List (String × Json)) : Except ParseExc Document :=
  match fieldString kvs "spdxVersion", fieldString kvs "SPDXID",
        fieldString kvs "name", fieldString kvs "documentNamespace",
        packagesOf kvs with
  | some v, some sid, some n, some ns, some pkgs =>
      .ok { creation_info := { spdx_version := v, spdx_id := sid,
                               name := n, document_namespace := ns },
            packages := pkgs }
  | _, _, _, _, _ => .error (.spdxParsingError (docErrors kvs))

/-- Models spdx-tools parse_file applied to a temp file holding the given
bytes.  Bytes that are not valid JSON make json.load raise a
JSONDecodeError, which is not an SPDXParsingError and escapes as a generic
exception; a top-level value that is not an object makes the dict-based
parser fail with an AttributeError, also not an SPDXParsingError; schema
violations on an object raise SPDXParsingError with messages. -/
def parse_file (raw : Raw) : Except ParseExc Document :=
  match json_loads raw with
  | none => .error (.otherError "Expecting value")
  | some (.obj kvs) => parseSpdxDict kvs
  | some _ => .error (.otherError "top-level JSON value is not an object")

/-- _unwrap_github_api_envelope from src/pg_atlas/ingestion/spdx.py:
if the bytes decode as a JSON object with a key sbom whose value is
itself an object, re-serialize that inner object; otherwise (including
undecodable bytes) return the original bytes unchanged. -/
def _unwrap_github_api_envelope (raw : Raw) : Raw :=
  match json_loads raw with
  | none => raw
  | some (.obj kvs) =>
      match jsonLookup kvs "sbom" with
      | some (.obj inner) => json_dumps (.obj inner)
      | _ => raw
  | some _ => raw

/-- parse_and_validate_spdx from src/pg_atlas/ingestion/spdx.py: unwrap
the GitHub API envelope once, run the schema parse, convert an
SPDXParsingError to an SpdxValidationError carrying its messages and any
other exception to a generic SpdxValidationError, and on success return
the document with package_count = len(document.packages). -/
def parse_and_validate_spdx (raw : Raw) : Except SpdxValidationError ParsedSbom :=
  match parse_file (_unwrap_github_api_envelope raw) with
  | .error (.spdxParsingError msgs) =>
      .error { detail := "Invalid SPDX 2.3 document.", messages := msgs }
  | .error (.otherError m) =>
      .error { detail := "Could not parse SPDX document: " ++ m, messages := [] }
  | .ok document =>
      .ok { document := document, package_count := document.packages.length }

/-! ## OIDC token verification (src/pg_atlas/auth/oidc.py) -/

/-- Models Python str.startswith. -/
def startswith (s p : String) : Bool := p.data.isPrefixOf s.data

/-- Models Python str.removeprefix: drops p from the front of s when it
is present, otherwise returns s unchanged. -/
def stripPre (s p : String) : String :=
  if startswith s p then String.mk (s.data.drop p.data.length) else s

/-- The decoded payload of a GitHub OIDC JWT, restricted to the header
field and claims the source verifies or extracts.  A missing claim is
modelled as none. -/
structure Jwt where
  alg : String
  kid : String
  iss : Option String
  aud : Option String
  exp : Option Int
  repository : Option String
  actor : Option String
deriving DecidableEq

/-- The ways JWKS-based key resolution
(PyJWKClient.get_signing_key_from_jwt) can fail, per the spec taxonomy:
the key set cannot be fetched, is malformed, or contains no key matching
the token's key-ID. -/
inductive JwksFailure where
  | networkUnreachable : JwksFailure
  | malformedJwks : JwksFailure
  | keyIdNotFound : JwksFailure
deriving DecidableEq

/-- The verification environment: configuration (settings.API_URL), the
clock, and the behavior of the external collaborators, abstracted per
token string — which JWT a token string decodes to, how JWKS key
resolution behaves on it, and which (token, key) pairs have a valid
RS256 signature. -/
structure OidcEnv where
  apiUrl : String
  now : Int
  jwtOf : String → Jwt
  resolveKey : String → Except JwksFailure String
  sigValid : Jwt → String → Bool

/-- GITHUB_OIDC_ISSUER from src/pg_atlas/auth/oidc.py. -/
def GITHUB_OIDC_ISSUER : String := "https://token.actions.githubusercontent.com"

/-- Outcome of PyJWT jwt.decode: the decoded payload, an
ExpiredSignatureError, or any other InvalidTokenError with its message. -/
inductive DecodeOutcome where
  | ok (payload : Jwt) : DecodeOutcome
  | expiredSignatureError : DecodeOutcome
  | invalidTokenError (msg : String) : DecodeOutcome
deriving DecidableEq

/-- PyJWT's required-claims check for the source's options list
require = [exp, iss, aud, repository, actor]: the first required claim
missing from the payload, in list order, if any. -/
def requiredMissing (t : Jwt) : Option String :=
  match t.exp, t.iss, t.aud, t.repository, t.actor with
  | none, _, _, _, _ => some "exp"
  | _, none, _, _, _ => some "iss"
  | _, _, none, _, _ => some "aud"
  | _, _, _, none, _ => some "repository"
  | _, _, _, _, none => some "actor"
  | some _, some _, some _, some _, some _ => none

/-- Models PyJWT jwt.decode as called by the source with
algorithms = [RS256], audience = settings.API_URL,
issuer = GITHUB_OIDC_ISSUER and the require option above: reject any
token whose header declares an algorithm other than RS256, then verify
the signature, then check required claims, expiry (strict: exp <= now is
expired), issuer and audience, in PyJWT's order. -/
def jwt_decode (env : OidcEnv) (tok : Jwt) (key : String) : DecodeOutcome :=
  if tok.alg ≠ "RS256" then
    .invalidTokenError "The specified alg value is not allowed"
  else if env.sigValid tok key = false then
    .invalidTokenError "Signature verification failed"
  else
    match requiredMissing tok with
    | some c => .invalidTokenError ("Token is missing the " ++ c ++ " claim")
    | none =>
      match tok.exp with
      | none => .invalidTokenError ("Token is missing the exp claim")
      | some e =>
        if e ≤ env.now then .expiredSignatureError
        else if tok.iss ≠ some GITHUB_OIDC_ISSUER then
          .invalidTokenError "Invalid issuer"
        else if tok.aud ≠ some env.apiUrl then
          .invalidTokenError "Invalid audience"
        else .ok tok

/-- Result of verify_github_oidc_token: either an HTTPException with its
status code and detail string, or the decoded claims. -/
inductive VerifyResult where
  | httpError (status : Nat) (detail : String) : VerifyResult
  | ok (claims : Jwt) : VerifyResult
deriving DecidableEq

/-- The 401 detail string raised for a missing or malformed
Authorization header. -/
def unauthDetail : String :=
  "Missing or malformed Authorization header. Expected: Bearer <oidc-token>"

/-- The single 403 detail string raised for every key-resolution
failure. -/
def keyResolutionDetail : String :=
  "Unable to retrieve or select JWKS signing key."

/-- The 403 detail string raised for an expired token. -/
def expiredDetail : String := "OIDC token has expired."

/-- The 403 detail string raised for any other InvalidTokenError, which
interpolates the underlying PyJWT message. -/
def tokenInvalidDetail (m : String) : String :=
  "OIDC token validation failed: " ++ m

/-- verify_github_oidc_token from src/pg_atlas/auth/oidc.py: 401 when the
header is absent, empty, or does not start with the Bearer scheme prefix;
403 with a single fixed detail when JWKS key resolution fails for any
reason (the except clause catches every exception identically); then
jwt.decode with its three outcomes mapped to the claims, the expired
detail, or the token-invalid detail. -/
def verify_github_oidc_token (env : OidcEnv) (authorization : Option String) :
    VerifyResult :=
  match authorization with
  | none => .httpError 401 unauthDetail
  | some a =>
    if a.data.isEmpty || !startswith a "Bearer " then
      .httpError 401 unauthDetail
    else
      match env.resolveKey (stripPre a "Bearer ") with
      | .error _ => .httpError 403 keyResolutionDetail
      | .ok key =>
        match jwt_decode env (env.jwtOf (stripPre a "Bearer ")) key with
        | .ok payload => .ok payload
        | .expiredSignatureError => .httpError 403 expiredDetail
        | .invalidTokenError msg => .httpError 403 (tokenInvalidDetail msg)

/-- The spec's rejection taxonomy, recovered from the externally visible
status code and detail string alone. -/
inductive RejectionClass where
  | unauthenticated : RejectionClass
  | keyResolutionError : RejectionClass
  | tokenExpired : RejectionClass
  | tokenInvalid : RejectionClass
  | accepted : RejectionClass
deriving DecidableEq

/-- Classifies a verification result by its externally visible status
and detail.  Distinct classes mean externally distinguishable results. -/
def VerifyResult.errClass : VerifyResult → RejectionClass
  | .ok _ => .accepted
  | .httpError s d =>
    if s = 401 then .unauthenticated
    else if d = keyResolutionDetail then .keyResolutionError
    else if d = expiredDetail then .tokenExpired
    else .tokenInvalid

/-! ## Ingestion pipeline (routers/ingestion.py, ingestion/queue.py) -/

/-- queue_sbom from src/pg_atlas/ingestion/queue.py: reads
claims[repository] and claims[actor] by dict access (none models the
KeyError escaping when a claim is absent) and returns the message,
repository and package_count of the 202 response body. -/
def queue_sbom (sbom : ParsedSbom) (claims : Jwt) :
    Option (String × String × Nat) :=
  match claims.repository, claims.actor with
  | some repo, some _ => some ("queued", repo, sbom.package_count)
  | _, _ => none

/-- The response of POST /ingest/sbom: a 202 acceptance body, an
HTTPException from authentication, the 422 schema-validation body, or an
unhandled server error (an exception escaping the handler). -/
inductive IngestResult where
  | response (status : Nat) (message : String) (repository : String)
      (package_count : Nat) : IngestResult
  | authError (status : Nat) (detail : String) : IngestResult
  | schemaError (status : Nat) (error : String) (messages : List String) :
      IngestResult
  | serverError : IngestResult
deriving DecidableEq

/-- ingest_sbom from src/pg_atlas/routers/ingestion.py: the OIDC
dependency runs first and its HTTPException propagates; then the raw body
is parsed, an SpdxValidationError becoming the 422 body with error and
messages; then queue_sbom produces the 202 Accepted response. -/
def ingest_sbom (env : OidcEnv) (authorization : Option String) (body : Raw) :
    IngestResult :=
  match verify_github_oidc_token env authorization with
  | .httpError s d => .authError s d
  | .ok claims =>
    match parse_and_validate_spdx body with
    | .error e => .schemaError 422 e.detail e.messages
    | .ok sbom =>
      match queue_sbom sbom claims with
      | none => .serverError
      | some (m, repo, cnt) => .response 202 m repo cnt

/-! ## Concrete fixtures used by witnesses and counterexamples -/

/-- A fully populated valid token payload. -/
def jwtValid : Jwt :=
  { alg := "RS256", kid := "k1", iss := some GITHUB_OIDC_ISSUER,
    aud := some "https://pg-atlas.example", exp := some 100,
    repository := some "acme/widget", actor := some "bot" }

/-- An environment in which every check succeeds. -/
def envAccept : OidcEnv :=
  { apiUrl := "https://pg-atlas.example", now := 50,
    jwtOf := fun _ => jwtValid,
    resolveKey := fun _ => .ok "key1",
    sigValid := fun _ _ => true }

/-- Key resolution fails because the JWKS endpoint is unreachable. -/
def envFailNet : OidcEnv :=
  { envAccept with resolveKey := fun _ => .error .networkUnreachable }

/-- Key resolution fails because the fetched JWKS is malformed. -/
def envFailJwks : OidcEnv :=
  { envAccept with resolveKey := fun _ => .error .malformedJwks }

/-- The token declares HS256 instead of the issuer's RS256. -/
def envBadAlg : OidcEnv :=
  { envAccept with jwtOf := fun _ => { jwtValid with alg := "HS256" } }

/-- The clock has reached the token's expiry timestamp. -/
def envExpired : OidcEnv := { envAccept with now := 100 }

/-- A declared package entry as found in real submissions. -/
def pkgA : Json :=
  .obj [("name", .str "pkg-a"), ("SPDXID", .str "SPDXRef-Package-a"),
        ("downloadLocation", .str "NOASSERTION")]

/-- A second declared package entry. -/
def pkgB : Json :=
  .obj [("name", .str "pkg-b"), ("SPDXID", .str "SPDXRef-Package-b"),
        ("downloadLocation", .str "NOASSERTION")]

/-- Top-level fields of a structurally valid SPDX 2.3 document with two
declared packages and no top-level sbom key. -/
def validKvs : List (String × Json) :=
  [("spdxVersion", .str "SPDX-2.3"),
   ("SPDXID", .str "SPDXRef-DOCUMENT"),
   ("name", .str "valid-doc"),
   ("documentNamespace", .str "https://example/ns"),
   ("creationInfo", .obj [("created", .str "2026-01-01T00:00:00Z"),
                          ("creators", .arr [.str "Tool: pg-atlas-sbom-action"])]),
   ("packages", .arr [pkgA, pkgB])]

/-- The document that validKvs parses to. -/
def docValid : Document :=
  { creation_info := { spdx_version := "SPDX-2.3", spdx_id := "SPDXRef-DOCUMENT",
                       name := "valid-doc", document_namespace := "https://example/ns" },
    packages := [pkgA, pkgB] }

/-- The successful parse result for validKvs. -/
def parsedValid : ParsedSbom := { document := docValid, package_count := 2 }

/-- The canonical serialization of the valid document. -/
def rawValidBody : Raw := json_dumps (.obj validKvs)

/-- A structurally valid document with no packages, used as the inner
value of a top-level sbom key. -/
def innerKvs : List (String × Json) :=
  [("spdxVersion", .str "SPDX-2.3"),
   ("SPDXID", .str "SPDXRef-DOCUMENT"),
   ("name", .str "inner-doc"),
   ("documentNamespace", .str "https://example/inner")]

/-- A structurally valid document with two declared packages that also
carries a top-level sbom key holding another mapping.  The schema parser
reads known keys by lookup, so the extra key does not affect validity of
the document itself. -/
def outerKvs : List (String × Json) :=
  [("spdxVersion", .str "SPDX-2.3"),
   ("SPDXID", .str "SPDXRef-DOCUMENT"),
   ("name", .str "outer-doc"),
   ("documentNamespace", .str "https://example/outer"),
   ("packages", .arr [pkgA, pkgB]),
   ("sbom", .obj innerKvs)]

/-- Valid JSON whose top-level value is a bare list, not a mapping,
in a non-canonical serialization. -/
def rawBareList : Raw := Raw.decodable (Json.arr []) 3

/-! ## Helper lemmas -/

/-- A header that starts with the Bearer scheme prefix is not empty. -/
theorem startswith_bearer_ne_nil (a : String) (h : startswith a "Bearer " = true) :
    a.data.isEmpty = false := by
  cases hd : a.data with
  | nil =>
    unfold startswith at h
    rw [hd] at h
    exact absurd h (by decide)
  | cons c cs => rfl

/-- On a well-formed Bearer header the verifier reduces to key resolution
followed by decoding of the extracted token. -/
theorem verify_some_of_startswith (env : OidcEnv) (a : String)
    (h : startswith a "Bearer " = true) :
    verify_github_oidc_token env (some a) =
      match env.resolveKey (stripPre a "Bearer ") with
      | .error _ => .httpError 403 keyResolutionDetail
      | .ok key =>
        match jwt_decode env (env.jwtOf (stripPre a "Bearer ")) key with
        | .ok payload => .ok payload
        | .expiredSignatureError => .httpError 403 expiredDetail
        | .invalidTokenError msg => .httpError 403 (tokenInvalidDetail msg) := by
  simp only [verify_github_oidc_token]
  rw [startswith_bearer_ne_nil a h, h]
  rfl

/-- jwt.decode returns the claims only when the required-claims check
passed, and it returns the token's own payload. -/
theorem jwt_decode_ok_inv (env : OidcEnv) (tok : Jwt) (key : String) (p : Jwt)
    (h : jwt_decode env tok key = .ok p) :
    p = tok ∧ requiredMissing tok = none := by
  unfold jwt_decode at h
  split at h
  · exact nomatch h
  split at h
  · exact nomatch h
  split at h
  · exact nomatch h
  next heq =>
    split at h
    · exact nomatch h
    · split at h
      · exact nomatch h
      split at h
      · exact nomatch h
      split at h
      · exact nomatch h
      · cases h
        exact ⟨rfl, heq⟩

/-- Successful verification implies every required claim was present in
the returned claims. -/
theorem verify_ok_inv (env : OidcEnv) (authorization : Option String) (c : Jwt)
    (h : verify_github_oidc_token env authorization = .ok c) :
    requiredMissing c = none := by
  cases authorization with
  | none => exact nomatch h
  | some a =>
    cases hb : startswith a "Bearer " with
    | false => simp [verify_github_oidc_token, hb] at h
    | true =>
      rw [verify_some_of_startswith env a hb] at h
      split at h
      · exact nomatch h
      · rename_i key hk
        cases hd : jwt_decode env (env.jwtOf (stripPre a "Bearer ")) key with
        | ok payload =>
          rw [hd] at h
          injection h with h2
          subst h2
          obtain ⟨hp, hreq⟩ := jwt_decode_ok_inv env _ _ _ hd
          rw [hp]
          exact hreq
        | expiredSignatureError => rw [hd] at h; exact nomatch h
        | invalidTokenError msg => rw [hd] at h; exact nomatch h

/-- When no required claim is missing, the attribution claims are both
present. -/
theorem requiredMissing_none_inv (t : Jwt) (h : requiredMissing t = none) :
    (∃ r, t.repository = some r) ∧ (∃ u, t.actor = some u) := by
  rcases t with ⟨alg, kid, iss, aud, exp, repo, act⟩
  cases exp <;> cases iss <;> cases aud <;> cases repo <;> cases act <;>
    simp_all [requiredMissing]

/-- Wrapping a JSON value under an sbom key yields a strictly larger
value, so the wrapper is never equal to what it wraps. -/
theorem json_obj_sbom_ne (D : Json) : Json.obj [("sbom", D)] ≠ D := by
  intro h
  have h2 := congrArg sizeOf h
  simp at h2
  omega

/-! ## Claim theorems -/

/-- C5: for every request whose Authorization header is absent, empty, or
does not begin with the Bearer scheme prefix, verify_github_oidc_token
fails with the 401 Unauthenticated rejection, and the result does not
depend on the environment at all — so neither key resolution nor
signature verification is attempted. -/
theorem verify_rejects_missing_or_malformed_header
    (env env' : OidcEnv) (authorization : Option String)
    (h : ∀ a, authorization = some a → startswith a "Bearer " = false) :
    verify_github_oidc_token env authorization = .httpError 401 unauthDetail ∧
    verify_github_oidc_token env authorization =
      verify_github_oidc_token env' authorization := by
  cases authorization with
  | none => exact ⟨rfl, rfl⟩
  | some a =>
    have hs := h a rfl
    have hone : ∀ e : OidcEnv,
        verify_github_oidc_token e (some a) = .httpError 401 unauthDetail := by
      intro e
      simp [verify_github_oidc_token, hs]
    exact ⟨hone env, (hone env).trans (hone env').symm⟩

/-- Witness for C5 at a concrete header using a non-Bearer scheme, with
two distinct environments. -/
theorem verify_rejects_missing_or_malformed_header_witness :
    verify_github_oidc_token envAccept (some "Token abc") =
      .httpError 401 unauthDetail ∧
    verify_github_oidc_token envAccept (some "Token abc") =
      verify_github_oidc_token envFailNet (some "Token abc") :=
  verify_rejects_missing_or_malformed_header envAccept envFailNet
    (some "Token abc") (fun a ha => by cases ha; decide)

/-- C2: every key-resolution failure — unreachable JWKS endpoint,
malformed JWKS, or key-ID not found — produces the identical externally
visible result: 403 with the one fixed key-resolution detail string,
classified as KeyResolutionError and never as TokenInvalid. -/
theorem verify_key_resolution_failures_indistinguishable
    (env env' : OidcEnv) (a a' : String) (f g : JwksFailure)
    (hpre : startswith a "Bearer " = true)
    (hpre' : startswith a' "Bearer " = true)
    (hf : env.resolveKey (stripPre a "Bearer ") = .error f)
    (hg : env'.resolveKey (stripPre a' "Bearer ") = .error g) :
    verify_github_oidc_token env (some a) =
      .httpError 403 keyResolutionDetail ∧
    verify_github_oidc_token env (some a) =
      verify_github_oidc_token env' (some a') ∧
    (verify_github_oidc_token env (some a)).errClass = .keyResolutionError := by
  have h1 : verify_github_oidc_token env (some a) =
      .httpError 403 keyResolutionDetail := by
    rw [verify_some_of_startswith env a hpre, hf]
  have h2 : verify_github_oidc_token env' (some a') =
      .httpError 403 keyResolutionDetail := by
    rw [verify_some_of_startswith env' a' hpre', hg]
  refine ⟨h1, h1.trans h2.symm, ?_⟩
  rw [h1]
  decide

/-- Witness for C2: a network failure and a malformed-JWKS failure on the
same concrete token yield the same rejection. -/
theorem verify_key_resolution_failures_indistinguishable_witness :
    verify_github_oidc_token envFailNet (some "Bearer t.t.t") =
      .httpError 403 keyResolutionDetail ∧
    verify_github_oidc_token envFailNet (some "Bearer t.t.t") =
      verify_github_oidc_token envFailJwks (some "Bearer t.t.t") ∧
    (verify_github_oidc_token envFailNet (some "Bearer t.t.t")).errClass =
      .keyResolutionError :=
  verify_key_resolution_failures_indistinguishable envFailNet envFailJwks
    "Bearer t.t.t" "Bearer t.t.t" .networkUnreachable .malformedJwks
    (by decide) (by decide) rfl rfl

/-- C3: with the signing key resolved, a token whose header declares any
algorithm other than RS256 is rejected with the 403 TokenInvalid detail
for a disallowed algorithm, for every environment — in particular for
every signature-validity relation, so algorithm confusion is not
possible. -/
theorem verify_rejects_non_rs256_alg
    (env : OidcEnv) (a key : String)
    (hpre : startswith a "Bearer " = true)
    (hkey : env.resolveKey (stripPre a "Bearer ") = .ok key)
    (halg : (env.jwtOf (stripPre a "Bearer ")).alg ≠ "RS256") :
    verify_github_oidc_token env (some a) =
      .httpError 403 (tokenInvalidDetail "The specified alg value is not allowed") ∧
    (verify_github_oidc_token env (some a)).errClass = .tokenInvalid := by
  have h1 : verify_github_oidc_token env (some a) =
      .httpError 403 (tokenInvalidDetail "The specified alg value is not allowed") := by
    rw [verify_some_of_startswith env a hpre, hkey]
    simp [jwt_decode, halg]
  refine ⟨h1, ?_⟩
  rw [h1]
  decide

/-- Witness for C3 at a concrete token declaring HS256, in an environment
whose signature-validity relation accepts everything. -/
theorem verify_rejects_non_rs256_alg_witness :
    verify_github_oidc_token envBadAlg (some "Bearer t.t.t") =
      .httpError 403 (tokenInvalidDetail "The specified alg value is not allowed") ∧
    (verify_github_oidc_token envBadAlg (some "Bearer t.t.t")).errClass =
      .tokenInvalid :=
  verify_rejects_non_rs256_alg envBadAlg "Bearer t.t.t" "key1"
    (by decide) rfl (by decide)

/-- C4: a correctly signed RS256 token that passes the required-claims,
issuer and audience checks but whose expiry is not strictly in the future
(exp <= now) is rejected with 403 and the dedicated expiry detail string,
classified as TokenExpired and distinguishable from TokenInvalid. -/
theorem verify_expired_token_distinct
    (env : OidcEnv) (a key : String) (e : Int) (r u : String)
    (hpre : startswith a "Bearer " = true)
    (hkey : env.resolveKey (stripPre a "Bearer ") = .ok key)
    (halg : (env.jwtOf (stripPre a "Bearer ")).alg = "RS256")
    (hsig : env.sigValid (env.jwtOf (stripPre a "Bearer ")) key = true)
    (hexp : (env.jwtOf (stripPre a "Bearer ")).exp = some e)
    (hee : e ≤ env.now)
    (hiss : (env.jwtOf (stripPre a "Bearer ")).iss = some GITHUB_OIDC_ISSUER)
    (haud : (env.jwtOf (stripPre a "Bearer ")).aud = some env.apiUrl)
    (hrepo : (env.jwtOf (stripPre a "Bearer ")).repository = some r)
    (hact : (env.jwtOf (stripPre a "Bearer ")).actor = some u) :
    verify_github_oidc_token env (some a) = .httpError 403 expiredDetail ∧
    (verify_github_oidc_token env (some a)).errClass = .tokenExpired ∧
    (verify_github_oidc_token env (some a)).errClass ≠ .tokenInvalid := by
  have h1 : verify_github_oidc_token env (some a) =
      .httpError 403 expiredDetail := by
    rw [verify_some_of_startswith env a hpre, hkey]
    simp [jwt_decode, requiredMissing, halg, hsig, hexp, hiss, haud,
      hrepo, hact, hee]
  refine ⟨h1, ?_, ?_⟩ <;> rw [h1] <;> decide

/-- Witness for C4 at a concrete token whose expiry equals the clock. -/
theorem verify_expired_token_distinct_witness :
    verify_github_oidc_token envExpired (some "Bearer t.t.t") =
      .httpError 403 expiredDetail ∧
    (verify_github_oidc_token envExpired (some "Bearer t.t.t")).errClass =
      .tokenExpired ∧
    (verify_github_oidc_token envExpired (some "Bearer t.t.t")).errClass ≠
      .tokenInvalid :=
  verify_expired_token_distinct envExpired "Bearer t.t.t" "key1" 100
    "acme/widget" "bot" (by decide) rfl rfl rfl rfl (by decide) rfl rfl rfl rfl

/-- C6: whenever parse_and_validate_spdx succeeds, the returned
package_count equals the length of the package list extracted into the
returned document — including zero for an empty list, and never a cached
or stale value. -/
theorem package_count_eq_packages_length
    (raw : Raw) (sbom : ParsedSbom)
    (h : parse_and_validate_spdx raw = .ok sbom) :
    sbom.package_count = sbom.document.packages.length := by
  unfold parse_and_validate_spdx at h
  split at h
  · exact nomatch h
  · exact nomatch h
  · injection h with h2
    subst h2
    rfl

/-- Witness for C6 at a concrete document with two declared packages. -/
theorem package_count_eq_packages_length_witness :
    parsedValid.package_count = parsedValid.document.packages.length :=
  package_count_eq_packages_length rawValidBody parsedValid rfl

/-- C7: a payload that decodes as JSON whose top-level value is not a
mapping passes through envelope unwrapping unchanged, and the subsequent
schema parse rejects it with an SpdxValidationError — not an
envelope-detection failure. -/
theorem nonmapping_payload_passthrough
    (raw : Raw) (j : Json)
    (hdec : json_loads raw = some j)
    (hnm : ∀ kvs, j ≠ Json.obj kvs) :
    _unwrap_github_api_envelope raw = raw ∧
    parse_and_validate_spdx raw =
      .error { detail := "Could not parse SPDX document: top-level JSON value is not an object",
               messages := [] } := by
  have hun : _unwrap_github_api_envelope raw = raw := by
    unfold _unwrap_github_api_envelope
    rw [hdec]
    cases j with
    | obj kvs => exact absurd rfl (hnm kvs)
    | null => rfl
    | bool b => rfl
    | num n => rfl
    | str s => rfl
    | arr xs => rfl
  refine ⟨hun, ?_⟩
  unfold parse_and_validate_spdx
  rw [hun]
  unfold parse_file
  rw [hdec]
  cases j with
  | obj kvs => exact absurd rfl (hnm kvs)
  | null => rfl
  | bool b => rfl
  | num n => rfl
  | str s => rfl
  | arr xs => rfl

/-- Witness for C7 at a concrete payload holding a bare empty list in a
non-canonical serialization. -/
theorem nonmapping_payload_passthrough_witness :
    _unwrap_github_api_envelope rawBareList = rawBareList ∧
    parse_and_validate_spdx rawBareList =
      .error { detail := "Could not parse SPDX document: top-level JSON value is not an object",
               messages := [] } :=
  nonmapping_payload_passthrough rawBareList (Json.arr []) rfl
    (fun _ h => nomatch h)

/-- C8: envelope unwrapping inspects only the single top-level sbom key
and unwraps at most once: any serialization of a doubly enveloped
document yields the serialization of the once-unwrapped mapping, which is
never the serialization of the innermost document itself. -/
theorem unwrap_envelope_not_recursive (D : Json) (fmt : Nat) :
    _unwrap_github_api_envelope
        (Raw.decodable (Json.obj [("sbom", Json.obj [("sbom", D)])]) fmt) =
      json_dumps (Json.obj [("sbom", D)]) ∧
    json_dumps (Json.obj [("sbom", D)]) ≠ json_dumps D := by
  constructor
  · rfl
  · intro h
    have h2 : Json.obj [("sbom", D)] = D := by
      simpa [json_dumps, Raw.decodable.injEq] using h
    exact json_obj_sbom_ne D h2

/-- C10: parse_and_validate_spdx is total: for every input it either
returns a parsed document or one of the two SpdxValidationError shapes —
the SPDXParsingError conversion carrying the parser messages, or the
generic conversion of any other parser exception.  No other outcome
exists, and a non-failing parse always carries a document, so the
defensive assertion in the source never fires. -/
theorem parse_and_validate_spdx_total (raw : Raw) :
    (∃ sbom, parse_and_validate_spdx raw = .ok sbom) ∨
    (∃ msgs, parse_and_validate_spdx raw =
        .error { detail := "Invalid SPDX 2.3 document.", messages := msgs }) ∨
    (∃ m, parse_and_validate_spdx raw =
        .error { detail := "Could not parse SPDX document: " ++ m,
                 messages := [] }) := by
  cases hp : parse_file (_unwrap_github_api_envelope raw) with
  | ok doc =>
    exact Or.inl ⟨_, by unfold parse_and_validate_spdx; rw [hp]⟩
  | error e =>
    cases e with
    | spdxParsingError msgs =>
      exact Or.inr (Or.inl ⟨msgs, by unfold parse_and_validate_spdx; rw [hp]⟩)
    | otherError m =>
      exact Or.inr (Or.inr ⟨m, by unfold parse_and_validate_spdx; rw [hp]⟩)

/-- C9: when token verification and SBOM parsing both succeed, the
repository claim is present and POST /ingest/sbom responds 202 with
message queued, the verified token's repository claim, and the parsed
document's package count. -/
theorem ingest_sbom_success_response
    (env : OidcEnv) (authorization : Option String) (body : Raw)
    (claims : Jwt) (sbom : ParsedSbom)
    (hauth : verify_github_oidc_token env authorization = .ok claims)
    (hparse : parse_and_validate_spdx body = .ok sbom) :
    claims.repository.isSome = true ∧
    ingest_sbom env authorization body =
      .response 202 "queued" (claims.repository.getD "") sbom.package_count := by
  obtain ⟨⟨r, hr⟩, ⟨u, hu⟩⟩ :=
    requiredMissing_none_inv claims (verify_ok_inv env authorization claims hauth)
  constructor
  · rw [hr]; rfl
  · unfold ingest_sbom
    rw [hauth, hparse]
    simp [queue_sbom, hr, hu]

/-- Witness for C9 at a concrete valid token and a concrete valid
two-package document. -/
theorem ingest_sbom_success_response_witness :
    jwtValid.repository.isSome = true ∧
    ingest_sbom envAccept (some "Bearer t.y.z") rawValidBody =
      .response 202 "queued" (jwtValid.repository.getD "") 2 :=
  ingest_sbom_success_response envAccept (some "Bearer t.y.z") rawValidBody
    jwtValid parsedValid rfl rfl

/-- C1 counterexample: outerKvs is a structurally valid document (the
schema parser accepts it directly), yet parsing its bare serialization
yields package_count 0 — the envelope unwrapper extracts its top-level
sbom member — while parsing the envelope wrapping it yields
package_count 2.  The bare document and the enveloped document do not
parse to identical results. -/
theorem unwrap_transparency_counterexample :
    (parse_file (json_dumps (Json.obj outerKvs))).toOption.isSome = true ∧
    (parse_and_validate_spdx (json_dumps (Json.obj outerKvs))).toOption.map
        ParsedSbom.package_count = some 0 ∧
    (parse_and_validate_spdx
        (json_dumps (Json.obj [("sbom", Json.obj outerKvs)]))).toOption.map
        ParsedSbom.package_count = some 2 :=
  ⟨rfl, rfl, rfl⟩

/-- C1 amended: for every structurally valid document whose top level
does not bind the key sbom to a mapping, parsing any serialization of the
bare document and any serialization of its envelope yield the identical
successful result. -/
theorem unwrap_transparent_without_sbom_key
    (kvs : List (String × Json)) (fmt1 fmt2 : Nat) (doc : Document)
    (hvalid : parseSpdxDict kvs = .ok doc)
    (hns : ∀ v, jsonLookup kvs "sbom" = some v → ∀ l, v ≠ Json.obj l) :
    parse_and_validate_spdx (Raw.decodable (Json.obj kvs) fmt1) =
      .ok { document := doc, package_count := doc.packages.length } ∧
    parse_and_validate_spdx (Raw.decodable (Json.obj [("sbom", Json.obj kvs)]) fmt2) =
      .ok { document := doc, package_count := doc.packages.length } := by
  have hun : _unwrap_github_api_envelope (Raw.decodable (Json.obj kvs) fmt1) =
      Raw.decodable (Json.obj kvs) fmt1 := by
    cases hl : jsonLookup kvs "sbom" with
    | none => simp [_unwrap_github_api_envelope, json_loads, hl]
    | some v =>
      cases v with
      | obj l => exact absurd rfl (hns _ hl l)
      | null => simp [_unwrap_github_api_envelope, json_loads, hl]
      | bool b => simp [_unwrap_github_api_envelope, json_loads, hl]
      | num n => simp [_unwrap_github_api_envelope, json_loads, hl]
      | str s => simp [_unwrap_github_api_envelope, json_loads, hl]
      | arr xs => simp [_unwrap_github_api_envelope, json_loads, hl]
  constructor
  · simp [parse_and_validate_spdx, hun, parse_file, json_loads, hvalid]
  · have hen : _unwrap_github_api_envelope
        (Raw.decodable (Json.obj [("sbom", Json.obj kvs)]) fmt2) =
        json_dumps (Json.obj kvs) := rfl
    simp [parse_and_validate_spdx, hen, json_dumps, parse_file, json_loads,
      hvalid]

/-- Witness for the amended C1 at the concrete valid two-package
document, in two non-canonical serializations. -/
theorem unwrap_transparent_without_sbom_key_witness :
    parse_and_validate_spdx (Raw.decodable (Json.obj validKvs) 1) =
      .ok { document := docValid, package_count := 2 } ∧
    parse_and_validate_spdx (Raw.decodable (Json.obj [("sbom", Json.obj validKvs)]) 2) =
      .ok { document := docValid, package_count := 2 } :=
  unwrap_transparent_without_sbom_key validKvs 1 2 docValid rfl
    (by intro v hv
        rw [show jsonLookup validKvs "sbom" = none from rfl] at hv
        exact nomatch hv)

end PgAtlas
